import Mathlib

/-!
Shallow embedding of the authentication/token core of the
RizqiSugiarto/coding-test CMS backend, and proofs about it.

Embedded source files:
- `pkg/apperror` (error variables),
- `pkg/jwt/jwt.go` (token manager: generate/parse access and refresh tokens),
- `internal/usecase/auth.go` (AuthUseCase.Login, AuthUseCase.Refresh),
- `internal/repository/postgres` UserRepo.GetByUsername,
- the `golang-jwt/v5` and `bcrypt` library behaviour the code calls into.

Machine integers: Unix timestamps and TTLs are modelled as `Int` (Go `int64`
values here are epoch seconds, far from overflow). Token strings: a signed
JWT string is modelled by the data that determines it — the claim set and
the signing key — since HS256 signing and JSON/base64 serialisation are
deterministic and injective on that data.
-/

namespace CodingTest

/-- The sentinel error values of `pkg/apperror` (one constructor per
`errors.New` variable). -/
inductive AppError where
  | invalidToken
  | invalidCredentials
  | notFound
  | unauthorized
  | invalidTokenClaims
  | invalidTokenType
  | databaseConnection
  | generateAccessToken
  | generateRefreshToken
  | duplicateKey
  deriving DecidableEq, Repr

/-- Errors produced by the `golang-jwt/v5` library itself: `jwt.Parse`
returns `ErrTokenMalformed`, `ErrTokenSignatureInvalid` or
`ErrTokenExpired` (wrapped), and `SignedString` can in principle fail with
a signing error. These are distinct values from every `apperror` variable. -/
inductive JwtLibError where
  | tokenMalformed
  | signatureInvalid
  | tokenExpired
  | signingFailure
  deriving DecidableEq, Repr

/-- The Go `error` values that flow through the auth core: a dedicated
`apperror` variable, an error of the JWT library passed through, or some
other third-party error (database driver, etc.). -/
inductive Err where
  | app (e : AppError)
  | jwtLib (e : JwtLibError)
  | other (code : Nat)
  deriving DecidableEq, Repr

/-- `jwt.MapClaims` as this code uses it: the `"user_id"`, `"type"` and
`"exp"` entries. A field is `none` when the key is absent or its value does
not have the type the code casts it to. -/
structure MapClaims where
  userId : Option String
  typ : Option String
  exp : Option Int
  deriving DecidableEq, Repr

/-- A signed JWT as produced by `token.SignedString(key)`: the claim set
together with the signing key. Two signed tokens are equal exactly when
their serialised strings are equal (HS256 + serialisation is a
deterministic injective function of claims and key). -/
structure SignedJwt where
  claims : MapClaims
  key : String
  deriving DecidableEq, Repr

/-- A token string handed to `jwt.Parse`: either the output of
`SignedString` or a string that is not a well-formed JWT. -/
inductive Tok where
  | signed (t : SignedJwt)
  | garbage (s : String)
  deriving DecidableEq, Repr

/-- `config.JWT`: the four settings the manager is constructed with.
TTLs in seconds. -/
structure JWTConfig where
  accessTokenSecretKey : String
  refreshTokenSecretKey : String
  accessTokenTTL : Int
  refreshTokenTTL : Int
  deriving DecidableEq, Repr

/-- `manager.GenerateAccessToken` (pkg/jwt/jwt.go lines 28-36): claims
`{user_id: userID, exp: now + AccessTokenTTL}` (no `type` entry), signed
with the access secret. `now` is the `time.Now().Unix()` second at the
call. Signing never fails for these marshalable claims. -/
def GenerateAccessToken (cfg : JWTConfig) (now : Int) (userID : String) : SignedJwt :=
  { claims := { userId := some userID, typ := none, exp := some (now + cfg.accessTokenTTL) }
    key := cfg.accessTokenSecretKey }

/-- `manager.GenerateRefreshToken` (pkg/jwt/jwt.go lines 38-47): claims
`{user_id: userID, type: "refresh", exp: now + RefreshTokenTTL}`, signed
with the refresh secret. -/
def GenerateRefreshToken (cfg : JWTConfig) (now : Int) (userID : String) : SignedJwt :=
  { claims := { userId := some userID, typ := some "refresh", exp := some (now + cfg.refreshTokenTTL) }
    key := cfg.refreshTokenSecretKey }

/-- What the wrapper code observes after `token, err := jwt.Parse(...)` and
the claims cast: the returned error, the `token.Valid` flag, whether
`token.Claims.(jwt.MapClaims)` succeeds, and the claim set. -/
structure ParseOutcome where
  err : Option Err
  valid : Bool
  castOk : Bool
  claims : MapClaims
  deriving DecidableEq, Repr

/-- `jwt.Parse(tokenStr, keyfunc)` of golang-jwt v5 with an HS256 keyfunc
returning `key`, observed at Unix second `now`: a malformed string fails
with `ErrTokenMalformed`; a wrong signing key fails with
`ErrTokenSignatureInvalid` (signature is checked before claim validation);
otherwise the `exp` claim, when present, must lie strictly in the future
(v5 `verifyExpiresAt` with zero leeway requires `now < exp`), else
`ErrTokenExpired`. On failure `token.Valid` is false; `jwt.Parse` always
yields a `jwt.MapClaims` claim set, so the cast succeeds. -/
def jwtParse (key : String) (now : Int) : Tok → ParseOutcome
  | Tok.garbage _ =>
      { err := some (Err.jwtLib JwtLibError.tokenMalformed), valid := false
        castOk := true, claims := { userId := none, typ := none, exp := none } }
  | Tok.signed t =>
      if t.key ≠ key then
        { err := some (Err.jwtLib JwtLibError.signatureInvalid), valid := false
          castOk := true, claims := t.claims }
      else
        match t.claims.exp with
        | none => { err := none, valid := true, castOk := true, claims := t.claims }
        | some e =>
            if now < e then
              { err := none, valid := true, castOk := true, claims := t.claims }
            else
              { err := some (Err.jwtLib JwtLibError.tokenExpired), valid := false
                castOk := true, claims := t.claims }

/-- Lines 50-63 of pkg/jwt/jwt.go after the `jwt.Parse` call: Go returns the
pair `(claims, err)`, both nilable, so the result is
`Option MapClaims × Option Err`.
`if err != nil || !token.Valid { return nil, err }`; then
`claims, ok := token.Claims.(jwt.MapClaims); if !ok { return nil,
apperror.ErrInvalidTokenClaims }`; then `return claims, nil`. -/
def accessValidateStep (pr : ParseOutcome) : Option MapClaims × Option Err :=
  if pr.err ≠ none ∨ pr.valid = false then (none, pr.err)
  else if pr.castOk = false then (none, some (Err.app AppError.invalidTokenClaims))
  else (some pr.claims, none)

/-- Lines 66-79 of pkg/jwt/jwt.go after the `jwt.Parse` call:
`if err != nil || !token.Valid { return nil, err }`; then
`claims, ok := token.Claims.(jwt.MapClaims); if !ok || claims["type"] !=
"refresh" { return nil, apperror.ErrInvalidTokenType }`; then
`return claims, nil`. -/
def refreshValidateStep (pr : ParseOutcome) : Option MapClaims × Option Err :=
  if pr.err ≠ none ∨ pr.valid = false then (none, pr.err)
  else if pr.castOk = false ∨ pr.claims.typ ≠ some "refresh" then
    (none, some (Err.app AppError.invalidTokenType))
  else (some pr.claims, none)

/-- `manager.ParseAndValidateAccessToken` (pkg/jwt/jwt.go lines 49-63):
parse with the access secret, then the access validation step. -/
def ParseAndValidateAccessToken (cfg : JWTConfig) (now : Int) (tok : Tok) :
    Option MapClaims × Option Err :=
  accessValidateStep (jwtParse cfg.accessTokenSecretKey now tok)

/-- `manager.ParseAndValidateRefreshToken` (pkg/jwt/jwt.go lines 65-79):
parse with the refresh secret, then the refresh validation step. -/
def ParseAndValidateRefreshToken (cfg : JWTConfig) (now : Int) (tok : Tok) :
    Option MapClaims × Option Err :=
  refreshValidateStep (jwtParse cfg.refreshTokenSecretKey now tok)

/-- A stored password hash string as `bcrypt.CompareHashAndPassword` sees
it: either a well-formed bcrypt hash of some plaintext, or a string bcrypt
cannot parse (empty, truncated, wrong prefix, ...). -/
inductive StoredHash where
  | bcryptOf (plaintext : String)
  | malformed (raw : String)
  deriving DecidableEq, Repr

/-- The failure modes of `bcrypt.CompareHashAndPassword`:
`ErrMismatchedHashAndPassword` for a well-formed hash of a different
plaintext, or a hash-parse error (`ErrHashTooShort`,
`InvalidHashPrefixError`, ...) for a malformed stored hash. -/
inductive BcryptError where
  | mismatchedHashAndPassword
  | hashParseFailure
  deriving DecidableEq, Repr

/-- `bcrypt.CompareHashAndPassword(hash, password)`: `nil` on a match,
`ErrMismatchedHashAndPassword` on a well-formed non-matching hash, a
parse error on a malformed hash. -/
def CompareHashAndPassword : StoredHash → String → Option BcryptError
  | StoredHash.bcryptOf p, q =>
      if p = q then none else some BcryptError.mismatchedHashAndPassword
  | StoredHash.malformed _, _ => some BcryptError.hashParseFailure

/-- `entity.User`: id, username, and the stored password hash. -/
structure User where
  id : String
  username : String
  password : StoredHash
  deriving DecidableEq, Repr

/-- `UserRepo.GetByUsername` (internal/repository/postgres): a `SELECT ...
WHERE username = $1`; `sql.ErrNoRows` is mapped to `apperror.ErrNotFound`,
a found row is returned as the user. The store is the users table. -/
def GetByUsername (store : List User) (username : String) : Except Err User :=
  match store.find? (fun u => u.username == username) with
  | some u => Except.ok u
  | none => Except.error (Err.app AppError.notFound)

/-- `dto.LoginRequestDTO`. -/
structure LoginRequestDTO where
  userName : String
  password : String
  deriving DecidableEq, Repr

/-- `dto.AuthResponseDTO`: the token pair returned by Login and Refresh. -/
structure AuthResponseDTO where
  accessToken : Tok
  refreshToken : Tok
  deriving DecidableEq, Repr

/-- The `jwt.Manager` interface as `AuthUseCase` consumes it in Login:
the two generators, each returning a token string or an error. -/
structure ManagerModel where
  genAccess : String → Except Err Tok
  genRefresh : String → Except Err Tok

/-- The concrete manager of pkg/jwt at Unix second `now`: generation
signs the claim maps built above; HS256 signing of these marshalable
claim maps does not fail. -/
def realManager (cfg : JWTConfig) (now : Int) : ManagerModel :=
  { genAccess := fun uid => Except.ok (Tok.signed (GenerateAccessToken cfg now uid))
    genRefresh := fun uid => Except.ok (Tok.signed (GenerateRefreshToken cfg now uid)) }

/-- Result of `AuthUseCase.Login`, instrumented with which generator calls
the control flow reached (the Go code calls `GenerateAccessToken` only
after the password check passes, and `GenerateRefreshToken` only after
the access token was generated). -/
structure LoginOutcome where
  result : Except Err AuthResponseDTO
  accessGenCalled : Bool
  refreshGenCalled : Bool
  deriving Repr

/-- `AuthUseCase.Login` (internal/usecase/auth.go lines 25-51):
look up the user (errors passed through unchanged); compare the stored
hash against the request password, any bcrypt error becoming
`apperror.ErrInvalidCredentials`; generate the access then the refresh
token, either error passed through unchanged; return the pair. -/
def Login (store : List User) (mgr : ManagerModel) (req : LoginRequestDTO) :
    LoginOutcome :=
  match GetByUsername store req.userName with
  | Except.error e =>
      { result := Except.error e, accessGenCalled := false, refreshGenCalled := false }
  | Except.ok user =>
      match CompareHashAndPassword user.password req.password with
      | some _ =>
          { result := Except.error (Err.app AppError.invalidCredentials)
            accessGenCalled := false, refreshGenCalled := false }
      | none =>
          match mgr.genAccess user.id with
          | Except.error e =>
              { result := Except.error e, accessGenCalled := true, refreshGenCalled := false }
          | Except.ok accToken =>
              match mgr.genRefresh user.id with
              | Except.error e =>
                  { result := Except.error e, accessGenCalled := true, refreshGenCalled := true }
              | Except.ok refrToken =>
                  { result := Except.ok { accessToken := accToken, refreshToken := refrToken }
                    accessGenCalled := true, refreshGenCalled := true }

/-- Go's `claims["user_id"].(string)` where `claims` may be the nil map
(indexing a nil map yields the zero value, whose string cast fails). -/
def claimsUserId : Option MapClaims → Option String
  | some c => c.userId
  | none => none

/-- `AuthUseCase.Refresh` (internal/usecase/auth.go lines 53-80) with the
concrete jwt manager: validate the refresh token (error passed through
unchanged); cast `claims["user_id"]` to string, failure becoming
`apperror.ErrInvalidTokenClaims`; generate a fresh access and refresh
token for that user id at the current second. -/
def Refresh (cfg : JWTConfig) (now : Int) (refreshToken : Tok) :
    Except Err AuthResponseDTO :=
  let r := ParseAndValidateRefreshToken cfg now refreshToken
  match r.2 with
  | some e => Except.error e
  | none =>
      match claimsUserId r.1 with
      | none => Except.error (Err.app AppError.invalidTokenClaims)
      | some userID =>
          Except.ok
            { accessToken := Tok.signed (GenerateAccessToken cfg now userID)
              refreshToken := Tok.signed (GenerateRefreshToken cfg now userID) }

/-- A sample configuration used by concrete witnesses. -/
def sampleCfg : JWTConfig :=
  { accessTokenSecretKey := "access-secret"
    refreshTokenSecretKey := "refresh-secret"
    accessTokenTTL := 900
    refreshTokenTTL := 86400 }

example :
    ParseAndValidateAccessToken sampleCfg 10 (Tok.signed (GenerateAccessToken sampleCfg 0 "u1")) =
      (some { userId := some "u1", typ := none, exp := some 900 }, none) := by decide

example :
    ParseAndValidateRefreshToken sampleCfg 86401
      (Tok.signed (GenerateRefreshToken sampleCfg 0 "u1")) =
      (none, some (Err.jwtLib JwtLibError.tokenExpired)) := by decide

example :
    Refresh sampleCfg 5 (Tok.signed (GenerateRefreshToken sampleCfg 0 "u1")) =
      Except.ok
        { accessToken := Tok.signed (GenerateAccessToken sampleCfg 5 "u1")
          refreshToken := Tok.signed (GenerateRefreshToken sampleCfg 5 "u1") } := by rfl

/-! ### Helper lemmas -/

theorem jwtParse_castOk (key : String) (now : Int) (tok : Tok) :
    (jwtParse key now tok).castOk = true := by
  cases tok with
  | garbage s => rfl
  | signed t =>
      simp only [jwtParse]
      split
      · rfl
      · cases h : t.claims.exp with
        | none => simp [h]
        | some e =>
            simp only [h]
            split <;> rfl

theorem jwtParse_err_cases (key : String) (now : Int) (tok : Tok) :
    (jwtParse key now tok).err = none ∨
      ∃ le, (jwtParse key now tok).err = some (Err.jwtLib le) ∧
        (jwtParse key now tok).valid = false := by
  cases tok with
  | garbage s => exact Or.inr ⟨JwtLibError.tokenMalformed, rfl, rfl⟩
  | signed t =>
      simp only [jwtParse]
      split
      · exact Or.inr ⟨JwtLibError.signatureInvalid, rfl, rfl⟩
      · cases h : t.claims.exp with
        | none => simp [h]
        | some e =>
            simp only [h]
            split
            · simp
            · exact Or.inr ⟨JwtLibError.tokenExpired, rfl, rfl⟩

theorem accessValidateStep_err (pr : ParseOutcome) (e : Err) (h : pr.err = some e) :
    accessValidateStep pr = (none, some e) := by
  simp [accessValidateStep, h]

theorem refreshValidateStep_err (pr : ParseOutcome) (e : Err) (h : pr.err = some e) :
    refreshValidateStep pr = (none, some e) := by
  simp [refreshValidateStep, h]

/-! ### Claim theorems -/

/-- C9: for a parse outcome where the underlying JWT parse reports no error
(`err == nil`) but marks the token as not valid, both
`ParseAndValidateAccessToken` and `ParseAndValidateRefreshToken`
(lines 53-55 and 69-71 of pkg/jwt/jwt.go, embedded as `accessValidateStep`
and `refreshValidateStep`) return nil claims together with a nil error — a
success-shaped result carrying no claims — rather than any error kind. -/
theorem C9_no_error_not_valid_returns_nil_nil (pr : ParseOutcome)
    (herr : pr.err = none) (hvalid : pr.valid = false) :
    accessValidateStep pr = (none, none) ∧ refreshValidateStep pr = (none, none) := by
  constructor
  · simp [accessValidateStep, herr, hvalid]
  · simp [refreshValidateStep, herr, hvalid]

theorem C9_no_error_not_valid_returns_nil_nil_witness :
    accessValidateStep
        { err := none, valid := false, castOk := true
          claims := { userId := none, typ := none, exp := none } } = (none, none) ∧
    refreshValidateStep
        { err := none, valid := false, castOk := true
          claims := { userId := none, typ := none, exp := none } } = (none, none) :=
  C9_no_error_not_valid_returns_nil_nil
    { err := none, valid := false, castOk := true
      claims := { userId := none, typ := none, exp := none } } rfl rfl

/-- C10: when the claim set of a signature- and expiry-valid token cannot be
cast to `jwt.MapClaims`, `ParseAndValidateRefreshToken` fails with
`InvalidTokenType` (the same error as for a wrong kind tag) whereas
`ParseAndValidateAccessToken` fails with `InvalidTokenClaims` — the two
validation steps report unparseable claims under different error kinds. -/
theorem C10_cast_failure_kinds_differ (pr : ParseOutcome)
    (herr : pr.err = none) (hvalid : pr.valid = true) (hcast : pr.castOk = false) :
    refreshValidateStep pr = (none, some (Err.app AppError.invalidTokenType)) ∧
    accessValidateStep pr = (none, some (Err.app AppError.invalidTokenClaims)) := by
  constructor
  · simp [refreshValidateStep, herr, hvalid, hcast]
  · simp [accessValidateStep, herr, hvalid, hcast]

theorem C10_cast_failure_kinds_differ_witness :
    refreshValidateStep
        { err := none, valid := true, castOk := false
          claims := { userId := none, typ := none, exp := none } } =
      (none, some (Err.app AppError.invalidTokenType)) ∧
    accessValidateStep
        { err := none, valid := true, castOk := false
          claims := { userId := none, typ := none, exp := none } } =
      (none, some (Err.app AppError.invalidTokenClaims)) :=
  C10_cast_failure_kinds_differ
    { err := none, valid := true, castOk := false
      claims := { userId := none, typ := none, exp := none } } rfl rfl rfl

/-- C3: for every token that passes signature and expiry verification under
the refresh secret but whose claims lack `type = "refresh"` (absent or
different), `ParseAndValidateRefreshToken` fails with exactly
`apperror.ErrInvalidTokenType`, never `apperror.ErrInvalidToken`. -/
theorem C3_nonrefresh_tag_invalid_token_type (cfg : JWTConfig) (now : Int) (tok : Tok)
    (herr : (jwtParse cfg.refreshTokenSecretKey now tok).err = none)
    (hvalid : (jwtParse cfg.refreshTokenSecretKey now tok).valid = true)
    (htyp : (jwtParse cfg.refreshTokenSecretKey now tok).claims.typ ≠ some "refresh") :
    ParseAndValidateRefreshToken cfg now tok =
      (none, some (Err.app AppError.invalidTokenType)) := by
  simp [ParseAndValidateRefreshToken, refreshValidateStep, herr, hvalid, htyp]

theorem C3_nonrefresh_tag_invalid_token_type_witness :
    ParseAndValidateRefreshToken sampleCfg 0
        (Tok.signed { claims := { userId := some "u1", typ := none, exp := some 100 }
                      key := "refresh-secret" }) =
      (none, some (Err.app AppError.invalidTokenType)) :=
  C3_nonrefresh_tag_invalid_token_type sampleCfg 0
    (Tok.signed { claims := { userId := some "u1", typ := none, exp := some 100 }
                  key := "refresh-secret" })
    (by decide) (by decide) (by decide)

/-- C1 counterexample: an expired refresh token (issued at second 0 with a
86400-second TTL, checked at second 86401) makes
`ParseAndValidateRefreshToken`, and hence `Refresh`, fail with the JWT
library's expiry error passed through unchanged — which is not
`apperror.ErrInvalidToken`, contradicting the claim that signature/expiry
failures surface as the `InvalidToken` kind. -/
theorem C1_expired_token_error_is_not_invalid_token :
    (ParseAndValidateRefreshToken sampleCfg 86401
        (Tok.signed (GenerateRefreshToken sampleCfg 0 "u1"))).2 =
      some (Err.jwtLib JwtLibError.tokenExpired) ∧
    Refresh sampleCfg 86401 (Tok.signed (GenerateRefreshToken sampleCfg 0 "u1")) =
      Except.error (Err.jwtLib JwtLibError.tokenExpired) ∧
    Err.jwtLib JwtLibError.tokenExpired ≠ Err.app AppError.invalidToken :=
  ⟨by decide, by rfl, by decide⟩

/-- C1 (amended): for every token string on which signature verification or
the expiry check fails, `ParseAndValidateAccessToken` and
`ParseAndValidateRefreshToken` fail with the underlying JWT library error
passed through unchanged — a `golang-jwt` error value, never
`apperror.ErrInvalidToken` — and `Refresh` applied to such a token
(in particular an expired refresh token) fails with that same
passed-through error. -/
theorem C1_signature_expiry_failure_passthrough (cfg : JWTConfig) (now : Int) (tok : Tok)
    (e₁ e₂ : Err)
    (hA : (jwtParse cfg.accessTokenSecretKey now tok).err = some e₁)
    (hR : (jwtParse cfg.refreshTokenSecretKey now tok).err = some e₂) :
    ParseAndValidateAccessToken cfg now tok = (none, some e₁) ∧
    ParseAndValidateRefreshToken cfg now tok = (none, some e₂) ∧
    Refresh cfg now tok = Except.error e₂ ∧
    (∃ le, e₁ = Err.jwtLib le) ∧ (∃ le, e₂ = Err.jwtLib le) ∧
    e₁ ≠ Err.app AppError.invalidToken ∧ e₂ ≠ Err.app AppError.invalidToken := by
  have hPA : ParseAndValidateAccessToken cfg now tok = (none, some e₁) :=
    accessValidateStep_err _ _ hA
  have hPR : ParseAndValidateRefreshToken cfg now tok = (none, some e₂) :=
    refreshValidateStep_err _ _ hR
  have hlib₁ : ∃ le, e₁ = Err.jwtLib le := by
    rcases jwtParse_err_cases cfg.accessTokenSecretKey now tok with h | ⟨le, hsome, _⟩
    · rw [h] at hA; exact absurd hA (by simp)
    · rw [hsome] at hA
      exact ⟨le, (Option.some.injEq _ _ ▸ hA.symm : e₁ = Err.jwtLib le)⟩
  have hlib₂ : ∃ le, e₂ = Err.jwtLib le := by
    rcases jwtParse_err_cases cfg.refreshTokenSecretKey now tok with h | ⟨le, hsome, _⟩
    · rw [h] at hR; exact absurd hR (by simp)
    · rw [hsome] at hR
      exact ⟨le, (Option.some.injEq _ _ ▸ hR.symm : e₂ = Err.jwtLib le)⟩
  refine ⟨hPA, hPR, ?_, hlib₁, hlib₂, ?_, ?_⟩
  · simp [Refresh, hPR]
  · rcases hlib₁ with ⟨le, rfl⟩; simp
  · rcases hlib₂ with ⟨le, rfl⟩; simp

theorem C1_signature_expiry_failure_passthrough_witness :
    ParseAndValidateAccessToken sampleCfg 86401
        (Tok.signed (GenerateRefreshToken sampleCfg 0 "u1")) =
      (none, some (Err.jwtLib JwtLibError.signatureInvalid)) ∧
    ParseAndValidateRefreshToken sampleCfg 86401
        (Tok.signed (GenerateRefreshToken sampleCfg 0 "u1")) =
      (none, some (Err.jwtLib JwtLibError.tokenExpired)) ∧
    Refresh sampleCfg 86401 (Tok.signed (GenerateRefreshToken sampleCfg 0 "u1")) =
      Except.error (Err.jwtLib JwtLibError.tokenExpired) ∧
    (∃ le, Err.jwtLib JwtLibError.signatureInvalid = Err.jwtLib le) ∧
    (∃ le, Err.jwtLib JwtLibError.tokenExpired = Err.jwtLib le) ∧
    Err.jwtLib JwtLibError.signatureInvalid ≠ Err.app AppError.invalidToken ∧
    Err.jwtLib JwtLibError.tokenExpired ≠ Err.app AppError.invalidToken :=
  C1_signature_expiry_failure_passthrough sampleCfg 86401
    (Tok.signed (GenerateRefreshToken sampleCfg 0 "u1"))
    (Err.jwtLib JwtLibError.signatureInvalid) (Err.jwtLib JwtLibError.tokenExpired)
    (by decide) (by decide)

/-- C5: a token produced by `GenerateAccessToken` at second `t0` validates
successfully via `ParseAndValidateAccessToken` — returning its claims,
subject id included — at every second strictly before its expiry
`t0 + AccessTokenTTL`, and fails validation (with the library's expiry
error) at every second after expiry. -/
theorem C5_access_token_roundtrip (cfg : JWTConfig) (uid : String)
    (t0 tBefore tAfter : Int)
    (hb : tBefore < t0 + cfg.accessTokenTTL)
    (ha : t0 + cfg.accessTokenTTL < tAfter) :
    ParseAndValidateAccessToken cfg tBefore (Tok.signed (GenerateAccessToken cfg t0 uid)) =
      (some { userId := some uid, typ := none, exp := some (t0 + cfg.accessTokenTTL) },
        none) ∧
    ParseAndValidateAccessToken cfg tAfter (Tok.signed (GenerateAccessToken cfg t0 uid)) =
      (none, some (Err.jwtLib JwtLibError.tokenExpired)) := by
  have hna : ¬ (tAfter < t0 + cfg.accessTokenTTL) := not_lt.mpr ha.le
  constructor
  · simp [ParseAndValidateAccessToken, GenerateAccessToken, jwtParse, accessValidateStep, hb]
  · simp [ParseAndValidateAccessToken, GenerateAccessToken, jwtParse, accessValidateStep, hna]

theorem C5_access_token_roundtrip_witness :
    ParseAndValidateAccessToken sampleCfg 899
        (Tok.signed (GenerateAccessToken sampleCfg 0 "u1")) =
      (some { userId := some "u1", typ := none, exp := some 900 }, none) ∧
    ParseAndValidateAccessToken sampleCfg 901
        (Tok.signed (GenerateAccessToken sampleCfg 0 "u1")) =
      (none, some (Err.jwtLib JwtLibError.tokenExpired)) := by
  have h := C5_access_token_roundtrip sampleCfg "u1" 0 899 901 (by decide) (by decide)
  simpa using h

/-- C6: when the access secret and the refresh secret differ, every token
produced by `GenerateRefreshToken` fails `ParseAndValidateAccessToken`
and every token produced by `GenerateAccessToken` fails
`ParseAndValidateRefreshToken` (the parse rejects the signature before any
claim is inspected), at every verification time. -/
theorem C6_cross_kind_rejection (cfg : JWTConfig) (uid₁ uid₂ : String)
    (t₁ t₂ now : Int)
    (hsec : cfg.accessTokenSecretKey ≠ cfg.refreshTokenSecretKey) :
    ParseAndValidateAccessToken cfg now (Tok.signed (GenerateRefreshToken cfg t₁ uid₁)) =
      (none, some (Err.jwtLib JwtLibError.signatureInvalid)) ∧
    ParseAndValidateRefreshToken cfg now (Tok.signed (GenerateAccessToken cfg t₂ uid₂)) =
      (none, some (Err.jwtLib JwtLibError.signatureInvalid)) := by
  have hsec' : cfg.refreshTokenSecretKey ≠ cfg.accessTokenSecretKey := Ne.symm hsec
  constructor
  · simp [ParseAndValidateAccessToken, GenerateRefreshToken, jwtParse, accessValidateStep, hsec']
  · simp [ParseAndValidateRefreshToken, GenerateAccessToken, jwtParse, refreshValidateStep, hsec]

theorem C6_cross_kind_rejection_witness :
    ParseAndValidateAccessToken sampleCfg 5
        (Tok.signed (GenerateRefreshToken sampleCfg 0 "u1")) =
      (none, some (Err.jwtLib JwtLibError.signatureInvalid)) ∧
    ParseAndValidateRefreshToken sampleCfg 5
        (Tok.signed (GenerateAccessToken sampleCfg 0 "u2")) =
      (none, some (Err.jwtLib JwtLibError.signatureInvalid)) :=
  C6_cross_kind_rejection sampleCfg "u1" "u2" 0 0 5 (by decide)

/-- A one-user store whose stored password hash is malformed (the empty
string is not a parseable bcrypt hash). -/
def malformedHashStore : List User :=
  [{ id := "id1", username := "admin", password := StoredHash.malformed "" }]

/-- A one-user store with a well-formed bcrypt hash of "admin123". -/
def adminStore : List User :=
  [{ id := "id1", username := "admin", password := StoredHash.bcryptOf "admin123" }]

/-- C2 counterexample: for a stored hash that is malformed,
`bcrypt.CompareHashAndPassword` reports a hash-parse failure (a
hash-computation failure, not a mismatch), yet `Login` fails with
`apperror.ErrInvalidCredentials` — the same kind as a verification
failure — contradicting the claim that a malformed stored hash is
surfaced as an internal error distinct from `InvalidCredentials`. -/
theorem C2_malformed_hash_yields_invalid_credentials :
    CompareHashAndPassword (StoredHash.malformed "") "admin123" =
      some BcryptError.hashParseFailure ∧
    (Login malformedHashStore (realManager sampleCfg 0)
        { userName := "admin", password := "admin123" }).result =
      Except.error (Err.app AppError.invalidCredentials) :=
  ⟨rfl, rfl⟩

/-- C2 (amended): in Login's password-verification step, hash-computation
failure and verification failure are NOT distinguished: for every stored
hash on which `bcrypt.CompareHashAndPassword` fails — whether because the
hash is malformed or because a well-formed hash does not match the
plaintext — `Login` fails with the single kind
`apperror.ErrInvalidCredentials`. -/
theorem C2_bcrypt_failures_conflated (store : List User) (mgr : ManagerModel)
    (req : LoginRequestDTO) (user : User) (e : BcryptError)
    (hu : GetByUsername store req.userName = Except.ok user)
    (hc : CompareHashAndPassword user.password req.password = some e) :
    (Login store mgr req).result = Except.error (Err.app AppError.invalidCredentials) := by
  simp [Login, hu, hc]

theorem C2_bcrypt_failures_conflated_witness :
    (Login malformedHashStore (realManager sampleCfg 0)
        { userName := "admin", password := "admin123" }).result =
      Except.error (Err.app AppError.invalidCredentials) :=
  C2_bcrypt_failures_conflated malformedHashStore (realManager sampleCfg 0)
    { userName := "admin", password := "admin123" }
    { id := "id1", username := "admin", password := StoredHash.malformed "" }
    BcryptError.hashParseFailure rfl rfl

/-- C4: for every username with no matching user in the store, `Login`
returns exactly `apperror.ErrNotFound` (the mapping of `sql.ErrNoRows` in
`GetByUsername`, passed through unchanged), and neither
`GenerateAccessToken` nor `GenerateRefreshToken` is invoked. -/
theorem C4_unknown_username_not_found (store : List User) (mgr : ManagerModel)
    (req : LoginRequestDTO)
    (h : store.find? (fun u => u.username == req.userName) = none) :
    (Login store mgr req).result = Except.error (Err.app AppError.notFound) ∧
    (Login store mgr req).accessGenCalled = false ∧
    (Login store mgr req).refreshGenCalled = false := by
  refine ⟨?_, ?_, ?_⟩ <;> simp [Login, GetByUsername, h]

theorem C4_unknown_username_not_found_witness :
    (Login adminStore (realManager sampleCfg 0)
        { userName := "ghost", password := "pw" }).result =
      Except.error (Err.app AppError.notFound) ∧
    (Login adminStore (realManager sampleCfg 0)
        { userName := "ghost", password := "pw" }).accessGenCalled = false ∧
    (Login adminStore (realManager sampleCfg 0)
        { userName := "ghost", password := "pw" }).refreshGenCalled = false :=
  C4_unknown_username_not_found adminStore (realManager sampleCfg 0)
    { userName := "ghost", password := "pw" } (by decide)

/-- A manager whose signing step fails, with the JWT library's signing
error — the shape a `SignedString` failure actually has. -/
def failingSignManager : ManagerModel :=
  { genAccess := fun _ => Except.error (Err.jwtLib JwtLibError.signingFailure)
    genRefresh := fun _ => Except.error (Err.jwtLib JwtLibError.signingFailure) }

/-- The first token-generation failure Login's control flow can meet:
the access generator's error if it fails, otherwise the refresh
generator's error if that fails. -/
def firstGenError (mgr : ManagerModel) (uid : String) : Option Err :=
  match mgr.genAccess uid with
  | Except.error e => some e
  | Except.ok _ =>
      match mgr.genRefresh uid with
      | Except.error e => some e
      | Except.ok _ => none

/-- C7 counterexample: with a known user, a matching password, and a
manager whose access-token signing fails with the signing library's error,
`Login` fails with that error passed through unchanged — not with
`apperror.ErrGenerateAccessToken` — contradicting the claim that signing
failures surface as the dedicated `GenerateAccessToken` kind. -/
theorem C7_signing_failure_not_mapped :
    (Login adminStore failingSignManager
        { userName := "admin", password := "admin123" }).result =
      Except.error (Err.jwtLib JwtLibError.signingFailure) ∧
    Err.jwtLib JwtLibError.signingFailure ≠ Err.app AppError.generateAccessToken ∧
    Err.jwtLib JwtLibError.signingFailure ≠ Err.app AppError.generateRefreshToken :=
  ⟨rfl, by decide, by decide⟩

/-- C7 (amended): in `Login`, a failure of either token-generation step is
passed through unchanged: `Login` fails with exactly the error the first
failing generator returned. The dedicated
`apperror.ErrGenerateAccessToken` / `ErrGenerateRefreshToken` kinds appear
only when the generator itself fails with them; the concrete jwt manager
returns the signing library's error instead. -/
theorem C7_generation_error_passthrough (store : List User) (mgr : ManagerModel)
    (req : LoginRequestDTO) (user : User) (e : Err)
    (hu : GetByUsername store req.userName = Except.ok user)
    (hc : CompareHashAndPassword user.password req.password = none)
    (hg : firstGenError mgr user.id = some e) :
    (Login store mgr req).result = Except.error e := by
  cases hA : mgr.genAccess user.id with
  | error eA =>
      simp only [firstGenError, hA] at hg
      cases hg
      simp [Login, hu, hc, hA]
  | ok accToken =>
      cases hB : mgr.genRefresh user.id with
      | error eB =>
          simp only [firstGenError, hA, hB] at hg
          cases hg
          simp [Login, hu, hc, hA, hB]
      | ok refrToken =>
          simp [firstGenError, hA, hB] at hg

theorem C7_generation_error_passthrough_witness :
    (Login adminStore failingSignManager
        { userName := "admin", password := "admin123" }).result =
      Except.error (Err.jwtLib JwtLibError.signingFailure) :=
  C7_generation_error_passthrough adminStore failingSignManager
    { userName := "admin", password := "admin123" }
    { id := "id1", username := "admin", password := StoredHash.bcryptOf "admin123" }
    (Err.jwtLib JwtLibError.signingFailure) rfl rfl rfl

/-- A valid sample refresh token: issued at second 0 for user `"u1"`. -/
def sampleRefreshTok : Tok := Tok.signed (GenerateRefreshToken sampleCfg 0 "u1")

theorem Refresh_ok_shape (cfg : JWTConfig) (t : Int) (tok : Tok) (p : AuthResponseDTO)
    (h : Refresh cfg t tok = Except.ok p) :
    ∃ uid, p = { accessToken := Tok.signed (GenerateAccessToken cfg t uid)
                 refreshToken := Tok.signed (GenerateRefreshToken cfg t uid) } := by
  simp only [Refresh] at h
  split at h
  · exact absurd h (by simp)
  · split at h
    · exact absurd h (by simp)
    · rename_i uid heq
      injection h with h
      exact ⟨uid, h.symm⟩

theorem GenerateAccessToken_time_inj {cfg : JWTConfig} {t₁ t₂ : Int} {u₁ u₂ : String}
    (h : GenerateAccessToken cfg t₁ u₁ = GenerateAccessToken cfg t₂ u₂) : t₁ = t₂ := by
  have hexp := congrArg (fun s => s.claims.exp) h
  simp only [GenerateAccessToken, Option.some.injEq] at hexp
  omega

theorem GenerateRefreshToken_time_inj {cfg : JWTConfig} {t₁ t₂ : Int} {u₁ u₂ : String}
    (h : GenerateRefreshToken cfg t₁ u₁ = GenerateRefreshToken cfg t₂ u₂) : t₁ = t₂ := by
  have hexp := congrArg (fun s => s.claims.exp) h
  simp only [GenerateRefreshToken, Option.some.injEq] at hexp
  omega

/-- C8 counterexample: `Refresh` is a deterministic function of the
configuration, the current Unix second, and the input token (HS256 signing
carries no nonce and `exp` has second granularity), so two successful
calls with the same valid refresh token during the same second return the
very same token pair — both access and refresh strings equal, not
differing as the claim requires. Each conjunct is one of the two calls. -/
theorem C8_same_second_calls_identical :
    Refresh sampleCfg 42 sampleRefreshTok =
      Except.ok { accessToken := Tok.signed (GenerateAccessToken sampleCfg 42 "u1")
                  refreshToken := Tok.signed (GenerateRefreshToken sampleCfg 42 "u1") } ∧
    Refresh sampleCfg 42 sampleRefreshTok =
      Except.ok { accessToken := Tok.signed (GenerateAccessToken sampleCfg 42 "u1")
                  refreshToken := Tok.signed (GenerateRefreshToken sampleCfg 42 "u1") } :=
  ⟨rfl, rfl⟩

/-- C8 (amended): two successful calls to `Refresh` with the same valid
refresh token return token pairs whose access and refresh token strings
differ between the two calls whenever the calls are issued at different
Unix seconds (the `exp` claims, hence the signed strings, then differ);
calls within the same second return identical pairs, since token
generation is deterministic. -/
theorem C8_distinct_seconds_distinct_tokens (cfg : JWTConfig) (tok : Tok)
    (t₁ t₂ : Int) (p₁ p₂ : AuthResponseDTO)
    (h₁ : Refresh cfg t₁ tok = Except.ok p₁)
    (h₂ : Refresh cfg t₂ tok = Except.ok p₂)
    (hne : t₁ ≠ t₂) :
    p₁.accessToken ≠ p₂.accessToken ∧ p₁.refreshToken ≠ p₂.refreshToken := by
  obtain ⟨u₁, rfl⟩ := Refresh_ok_shape cfg t₁ tok p₁ h₁
  obtain ⟨u₂, rfl⟩ := Refresh_ok_shape cfg t₂ tok p₂ h₂
  constructor
  · intro hcontra
    injection hcontra with h
    exact hne (GenerateAccessToken_time_inj h)
  · intro hcontra
    injection hcontra with h
    exact hne (GenerateRefreshToken_time_inj h)

theorem C8_distinct_seconds_distinct_tokens_witness :
    Tok.signed (GenerateAccessToken sampleCfg 7 "u1") ≠
      Tok.signed (GenerateAccessToken sampleCfg 8 "u1") ∧
    Tok.signed (GenerateRefreshToken sampleCfg 7 "u1") ≠
      Tok.signed (GenerateRefreshToken sampleCfg 8 "u1") :=
  C8_distinct_seconds_distinct_tokens sampleCfg sampleRefreshTok 7 8
    { accessToken := Tok.signed (GenerateAccessToken sampleCfg 7 "u1")
      refreshToken := Tok.signed (GenerateRefreshToken sampleCfg 7 "u1") }
    { accessToken := Tok.signed (GenerateAccessToken sampleCfg 8 "u1")
      refreshToken := Tok.signed (GenerateRefreshToken sampleCfg 8 "u1") }
    rfl rfl (by decide)

end CodingTest
